import Mathlib

/-!
Shallow embedding of the notification dispatch core of the
smart-notification-service repository:

* `src/notifications/providers/__init__.py` — `get_provider`
* `src/notifications/providers/base.py` — `ProviderResult`
* `src/notifications/providers/email_provider.py` — `EmailProvider.send`
* `src/notifications/tasks.py` — `send_notification_task`,
  `_render_notification`, `_move_to_dead_letter`, `MAX_RETRIES`, `RETRY_DELAYS`
* `src/notifications/models.py` — the `Notification`, `Template` and
  `DeadLetter` fields the dispatcher reads and writes.

Python dict values that can appear in `provider_response` are modelled by
`PyVal`; timestamps by `Nat`; the Django mail transport
(`EmailMultiAlternatives.send` on the configured connection) by an oracle
function `EmailMessage → Except String Nat` returning the accepted-recipient
count or an exception message; Jinja2 rendering by an executable scanner over
the template text implementing Jinja2's default (lenient) `Undefined`
semantics for templates made of literal text and double-curly variable
references, which is the fragment the dispatcher's callers produce.
-/

namespace SmartNotification

/-- Primitive Python values stored in JSON fields. -/
inductive PyPrim where
  | str (s : String)
  | int (n : Nat)
  | pynone
deriving DecidableEq, Repr

/-- Python values appearing in a `ProviderResult.to_dict()` dictionary:
primitives or one level of nested dict (the `raw` key). -/
inductive PyVal where
  | prim (p : PyPrim)
  | dict (entries : List (String × PyPrim))
deriving DecidableEq, Repr

/-- Embedding of `ProviderResult` from `src/notifications/providers/base.py`. -/
structure ProviderResult where
  provider : String
  status : String
  message_id : Option String
  detail : Option String
  raw : Option (List (String × PyPrim))
deriving DecidableEq, Repr

/-- Turns an optional string into the Python value stored by `to_dict`. -/
def optStrVal : Option String → PyVal
  | none => .prim .pynone
  | some s => .prim (.str s)

/-- Embedding of `ProviderResult.to_dict` (base.py lines 27-34): a dict with
the five fixed keys, `raw` defaulted to the empty dict when `None`. -/
def ProviderResult.to_dict (r : ProviderResult) : List (String × PyVal) :=
  [("provider", .prim (.str r.provider)),
   ("status", .prim (.str r.status)),
   ("message_id", optStrVal r.message_id),
   ("detail", optStrVal r.detail),
   ("raw", .dict (r.raw.getD []))]

/-- Embedding of Python dict `.get(key)` on a string-to-string mapping. -/
def lookupStr (m : List (String × String)) (k : String) : Option String :=
  match m with
  | [] => none
  | p :: rest => if p.1 = k then some p.2 else lookupStr rest k

/-- Decidable equality on `Except`, needed so witnesses can be checked with
`decide`. -/
instance {ε α : Type} [DecidableEq ε] [DecidableEq α] : DecidableEq (Except ε α) :=
  fun a b =>
  match a, b with
  | .ok x, .ok y =>
    if h : x = y then .isTrue (by rw [h]) else .isFalse (fun hc => by cases hc; exact h rfl)
  | .error x, .error y =>
    if h : x = y then .isTrue (by rw [h]) else .isFalse (fun hc => by cases hc; exact h rfl)
  | .ok _, .error _ => .isFalse (fun hc => Except.noConfusion hc)
  | .error _, .ok _ => .isFalse (fun hc => Except.noConfusion hc)

/-- Whitespace-trimming on a character list, modelling how Jinja2 strips the
blanks around a variable name in `\x7b\x7b name \x7d\x7d`. Implemented on
characters so that it evaluates by kernel reduction. -/
def trimChars (l : List Char) : List Char :=
  ((l.dropWhile Char.isWhitespace).reverse.dropWhile Char.isWhitespace).reverse

/-- Embedding of Python `str.lower()` (ASCII case folding suffices for the
channel names of this repository), character by character so that it
evaluates by kernel reduction. -/
def pyLower (s : String) : String := String.mk (s.data.map Char.toLower)

/-- Jinja2 scanner helper: after an opening double brace, collect the
variable name up to the closing double brace, returning the name's
characters and the remaining characters. -/
def takeVar : List Char → List Char × List Char
  | [] => ([], [])
  | c :: rest =>
    if c = '}' ∧ rest.head? = some '}' then ([], rest.tail)
    else
      let r := takeVar rest
      (c :: r.1, r.2)

/-- Jinja2 rendering of a character stream under the default (lenient)
`Undefined` semantics: a `\x7b\x7bname\x7d\x7d` reference is replaced by the
mapping's value for `name`, or by the empty string when `name` is absent —
this is what `jinja2.Template(text).render(**data)` does, since
`jinja2.Template` is constructed without `undefined=StrictUndefined`
throughout the repository. The first argument is recursion fuel; every call
goes through `jinjaRender`, which supplies fuel exceeding the character
count, and each recursive call consumes at least one character, so the
zero-fuel branch is never reached from `jinjaRender`. -/
def renderChars (data : List (String × String)) : Nat → List Char → String
  | 0, _ => ""
  | _ + 1, [] => ""
  | fuel + 1, '{' :: '{' :: rest =>
    let r := takeVar rest
    (lookupStr data (String.mk (trimChars r.1))).getD "" ++ renderChars data fuel r.2
  | fuel + 1, c :: rest => String.singleton c ++ renderChars data fuel rest

/-- Embedding of `jinja2.Template(text).render(**data)` as used by
`_render_notification` (tasks.py lines 100-130), for well-formed templates of
literal text and variable references. -/
def jinjaRender (text : String) (data : List (String × String)) : String :=
  renderChars data (text.data.length + 1) text.data

/-- The `Template` fields the dispatcher reads (models.py lines 7-61):
`subject` is nullable/blank, `body` is the template text, `is_active` is the
activity flag. -/
structure Template where
  subject : Option String
  body : String
  is_active : Bool
deriving DecidableEq, Repr

/-- The `Notification` fields the dispatcher reads and writes
(models.py lines 64-154). `template` holds the resolved foreign key (none
when null); `template_data`, `inline_subject` and `inline_body` are the
entries the ingress stores under `data` (views.py lines 84-88), with `none`
modelling an absent/null entry; statuses are the literal strings of
`STATUS_CHOICES`; `provider_response` defaults to the empty dict;
`sent_at` is an abstract timestamp. The Python attribute `to` is named
`to_addr` here because `to` is a reserved token in Lean. -/
structure Notification where
  channel : String
  to_addr : String
  template : Option Template
  template_data : List (String × String)
  inline_subject : Option String
  inline_body : Option String
  status : String
  provider_response : List (String × PyVal)
  error_message : Option String
  sent_at : Option Nat
deriving DecidableEq, Repr

/-- The `DeadLetter` fields written by `_move_to_dead_letter`
(models.py lines 157-189): the linked notification is implicit because the
embedding tracks a single notification's row set. -/
structure DeadLetter where
  reason : String
  retry_count : Nat
deriving DecidableEq, Repr

/-- Database state touched by one notification's dispatch: the notification
row and its (initially empty) dead-letter rows. -/
structure DB where
  notification : Notification
  dead_letters : List DeadLetter
deriving DecidableEq, Repr

/-- Python truthiness of an optional string: `None` and the empty string are
falsy (`if template.subject:` in tasks.py). -/
def pyTruthyStr : Option String → Bool
  | none => false
  | some s => s ≠ ""

/-- Errors raised by `get_provider` (providers/__init__.py lines 12-30):
`NotImplementedError` for the known-but-unbuilt channels, `ValueError` for
every other non-email channel. -/
inductive GetProviderError where
  | notImplementedChannel (channel : String)
  | unsupportedChannel (channel : String)
deriving DecidableEq, Repr

/-- Embedding of `get_provider` (providers/__init__.py lines 12-30). The only
implemented provider is the email one, so success carries no data; the
channel is normalized with `.lower()` exactly as in the source. -/
def get_provider (channel : String) : Except GetProviderError Unit :=
  let normalized := pyLower channel
  if normalized = "email" then .ok ()
  else if normalized = "sms" ∨ normalized = "whatsapp" ∨ normalized = "push" then
    .error (.notImplementedChannel normalized)
  else .error (.unsupportedChannel channel)

/-- Text of `str(e)` for each `get_provider` raise site. -/
def GetProviderError.message : GetProviderError → String
  | .notImplementedChannel c =>
      "Provider for channel \x27" ++ c ++ "\x27 is not implemented yet."
  | .unsupportedChannel c => "Unsupported channel: " ++ c

/-- The `EmailMultiAlternatives` message constructed by `EmailProvider.send`
(email_provider.py lines 61-67). The Python keyword `to` is named `to_addrs`
here because `to` is a reserved token in Lean. -/
structure EmailMessage where
  subject : String
  body : String
  from_email : String
  to_addrs : List String
deriving DecidableEq, Repr

/-- Exceptions `EmailProvider.send` can raise (email_provider.py lines
42-56 raise `ValueError`; a transport exception from `message.send` is
logged and re-raised at lines 97-107). -/
inductive EmailSendError where
  | invalidChannel (channel : String)
  | emptyRecipient
  | emptyBody
  | missingFromEmail
  | transportError (msg : String)
deriving DecidableEq, Repr

/-- Text of `str(e)` for each `EmailProvider.send` raise site. -/
def EmailSendError.message : EmailSendError → String
  | .invalidChannel c =>
      "EmailProvider can only handle \x27email\x27 channel, got \x27" ++ c ++ "\x27"
  | .emptyRecipient => "Recipient email address is required"
  | .emptyBody => "Email body is required"
  | .missingFromEmail => "DEFAULT_FROM_EMAIL is not configured"
  | .transportError m => m

/-- External mail environment consumed by `EmailProvider.send`:
`settings.DEFAULT_FROM_EMAIL` (absent modelled as `none`), the connection's
class name (`connection.__class__.__name__`), and the transport oracle for
`message.send(fail_silently=False)` returning the accepted-recipient count
or raising. -/
structure MailEnv where
  default_from_email : Option String
  backend : String
  transport : EmailMessage → Except String Nat

/-- Embedding of `subject = subject or "Notification"`
(email_provider.py line 51). -/
def default_subject : Option String → String
  | none => "Notification"
  | some s => if s = "" then "Notification" else s

/-- The `ProviderResult` built by `EmailProvider.send` from the transport's
accepted-recipient count (email_provider.py lines 84-93). -/
def mk_email_result (backend : String) (sent_count : Nat) : ProviderResult :=
  { provider := "email"
    status := if sent_count > 0 then "sent" else "not_sent"
    message_id := none
    detail := some (if sent_count > 0 then "Sent to 1 recipient"
                    else "No recipients accepted")
    raw := some [("sent_count", .int sent_count), ("backend", .str backend)] }

/-- Embedding of `EmailProvider.send` (email_provider.py lines 26-107),
also exposing the constructed `EmailMessage` so that what was handed to the
transport is observable. Validation order follows the source: channel,
recipient, body, subject default, `DEFAULT_FROM_EMAIL` (where Python's
`if not from_email` treats both `None` and the empty string as missing),
then the transport call. -/
def EmailProvider.sendCore (env : MailEnv) (to_addr : String)
    (subject : Option String) (body : String) (channel : String) :
    Except EmailSendError (EmailMessage × List (String × PyVal)) :=
  if channel ≠ "email" then .error (.invalidChannel channel)
  else if to_addr = "" then .error .emptyRecipient
  else if body = "" then .error .emptyBody
  else
    let subj := default_subject subject
    match env.default_from_email with
    | none => .error .missingFromEmail
    | some fe =>
      if fe = "" then .error .missingFromEmail
      else
        let message : EmailMessage :=
          { subject := subj, body := body, from_email := fe, to_addrs := [to_addr] }
        match env.transport message with
        | .error m => .error (.transportError m)
        | .ok sent_count => .ok (message, (mk_email_result env.backend sent_count).to_dict)

/-- The value `EmailProvider.send` actually returns: `result.to_dict()`
(email_provider.py line 95). -/
def EmailProvider.send (env : MailEnv) (to_addr : String) (subject : Option String)
    (body : String) (channel : String) :
    Except EmailSendError (List (String × PyVal)) :=
  (EmailProvider.sendCore env to_addr subject body channel).map Prod.snd

/-- Embedding of `MAX_RETRIES` (tasks.py line 11). -/
def MAX_RETRIES : Nat := 3

/-- Embedding of `RETRY_DELAYS` (tasks.py line 14). This list is defined in
the source but never referenced by `send_notification_task`, whose retry
delays instead come from the Celery options on the decorator. -/
def RETRY_DELAYS : List Nat := [60, 300, 900]

/-- Embedding of `_render_notification` (tasks.py lines 100-130): template
path when the foreign key is set, inline path otherwise, both substituting
with `data.get("template_data", \x7b\x7d)`. The subject is rendered only when
truthy, mirroring `if template.subject:` and `if inline_subject:`. -/
def render_notification (n : Notification) : Option String × String :=
  match n.template with
  | some t =>
    let body := jinjaRender t.body n.template_data
    let subject := if pyTruthyStr t.subject then
        some (jinjaRender (t.subject.getD "") n.template_data)
      else none
    (subject, body)
  | none =>
    let inline_body := n.inline_body.getD ""
    let inline_subject := n.inline_subject.getD ""
    let body := jinjaRender inline_body n.template_data
    let subject := if inline_subject ≠ "" then
        some (jinjaRender inline_subject n.template_data)
      else none
    (subject, body)

/-- Exceptions the try block of `send_notification_task` can catch: a
provider-lookup failure from `get_provider` or a failure raised by
`EmailProvider.send`. -/
inductive AttemptError where
  | providerLookup (e : GetProviderError)
  | emailSend (e : EmailSendError)
deriving DecidableEq, Repr

/-- Text of `str(e)` for an attempt failure. -/
def AttemptError.message : AttemptError → String
  | .providerLookup e => e.message
  | .emailSend e => e.message

/-- Environment of one task execution: the mail environment and the value
`timezone.now()` would return. -/
structure TaskEnv where
  mail : MailEnv
  now : Nat

/-- The body of the try block of `send_notification_task` (tasks.py lines
57-70): render, resolve the provider, send. The boolean records whether the
provider's `send` was invoked (false when `get_provider` raised), so that
"no provider call occurs" is observable. -/
def attempt_send (env : TaskEnv) (n : Notification) :
    Bool × Except AttemptError (List (String × PyVal)) :=
  let sb := render_notification n
  match get_provider n.channel with
  | .error e => (false, .error (.providerLookup e))
  | .ok _ =>
    match EmailProvider.send env.mail n.to_addr sb.1 sb.2 n.channel with
    | .error e => (true, .error (.emailSend e))
    | .ok result => (true, .ok result)

/-- Embedding of `_move_to_dead_letter` (tasks.py lines 133-148): set status
`failed`, then create the `DeadLetter` row. -/
def move_to_dead_letter (db : DB) (reason : String) (retry_count : Nat) : DB :=
  { notification := { db.notification with status := "failed" }
    dead_letters := db.dead_letters ++ [{ reason := reason, retry_count := retry_count }] }

/-- How one task invocation ends: a normal return, or a re-raised exception
that Celery's `autoretry_for=(Exception,)` turns into a scheduled retry. -/
inductive TaskOutcome where
  | returned
  | raised (msg : String)
deriving DecidableEq, Repr

/-- Result of one task invocation: the database state afterwards, how the
invocation ended, and whether a provider `send` was called. -/
structure StepResult where
  db : DB
  outcome : TaskOutcome
  provider_called : Bool
deriving Repr

/-- Embedding of one invocation of `send_notification_task` (tasks.py lines
25-97) on an existing notification, with `retries` the value of
`self.request.retries` supplied by Celery (0 on the first attempt). The
not-found early return at lines 44-46 is outside the embedding, which always
holds the notification row. -/
def send_notification_task (env : TaskEnv) (retries : Nat) (db : DB) : StepResult :=
  let n := db.notification
  if n.status = "sent" ∨ n.status = "delivered" then
    { db := db, outcome := .returned, provider_called := false }
  else
    let n1 := { n with status := "processing" }
    let att := attempt_send env n1
    match att.2 with
    | .ok result =>
      let n2 := { n1 with
                  status := "sent",
                  sent_at := some env.now,
                  provider_response := result }
      { db := { notification := n2, dead_letters := db.dead_letters }
        outcome := .returned, provider_called := att.1 }
    | .error e =>
      let msg := e.message
      let n2 := { n1 with error_message := some msg }
      if MAX_RETRIES ≤ retries then
        { db := move_to_dead_letter { notification := n2, dead_letters := db.dead_letters } msg retries
          outcome := .returned, provider_called := att.1 }
      else
        { db := { notification := n2, dead_letters := db.dead_letters }
          outcome := .raised msg, provider_called := att.1 }

/-- A sequence of dispatcher invocations, each with its own environment and
Celery retry counter: the only writer of the notification row. -/
def run_ops (db : DB) : List (TaskEnv × Nat) → DB
  | [] => db
  | op :: rest => run_ops (send_notification_task op.1 op.2 db).db rest

/-- The Celery retry chain: run an attempt; while it re-raises, run the next
attempt with an incremented retry counter, as `autoretry_for` does. -/
def run_chain (env : TaskEnv) : Nat → Nat → DB → DB
  | 0, _, db => db
  | fuel + 1, retries, db =>
    let res := send_notification_task env retries db
    match res.outcome with
    | .returned => res.db
    | .raised _ => run_chain env fuel (retries + 1) res.db

/-- Largest countdown Celery can choose before the retry following a failure
with `self.request.retries = retries`, under the decorator options
`retry_backoff=True` (factor one second), `retry_backoff_max=900` and
`retry_jitter=True` (tasks.py lines 17-24): Celery computes
`min(900, 1 * 2 ** retries)` and jitter draws the actual countdown uniformly
from 0 to that value inclusive. -/
def celery_backoff_cap (retries : Nat) : Nat := min (2 ^ retries) 900

/-- Modelled from the spec: the nominal backoff schedule named by the claim,
`schedule = [60, 300, 900]`, 1-indexed and capped at its last entry for
attempts beyond its length. -/
def spec_schedule (k : Nat) : Nat :=
  if 3 ≤ k then 900 else if k = 2 then 300 else 60

/-- State of a notification row as the ingress creates it
(views.py lines 79-90 plus the model defaults): status `pending`, empty
provider response, no error message, no sent timestamp. -/
def freshly_created (n : Notification) : Prop :=
  n.status = "pending" ∧ n.provider_response = [] ∧
  n.error_message = none ∧ n.sent_at = none

instance (n : Notification) : Decidable (freshly_created n) := by
  unfold freshly_created; infer_instance

/-! ## Concrete fixtures used by witnesses and counterexamples -/

/-- A working mail environment: a configured sender and a transport that
accepts the one recipient. -/
def envOk : TaskEnv :=
  { mail := { default_from_email := some "noreply@example.com"
              backend := "SMTPBackend"
              transport := fun _ => .ok 1 }
    now := 1111 }

/-- A mail environment whose transport raises on every call. -/
def envBoom : TaskEnv :=
  { mail := { default_from_email := some "noreply@example.com"
              backend := "SMTPBackend"
              transport := fun _ => .error "boom" }
    now := 1111 }

/-- A freshly created inline email notification, as in the spec's happy-path
scenario. -/
def nInline : Notification :=
  { channel := "email", to_addr := "a@b.com", template := none
    template_data := [("name", "Sam")]
    inline_subject := some "Hello!"
    inline_body := some "Hi \x7b\x7bname\x7d\x7d, welcome!"
    status := "pending", provider_response := []
    error_message := none, sent_at := none }

/-- The same notification on the unknown channel of the spec's scenario. -/
def nPigeon : Notification := { nInline with channel := "carrier-pigeon" }

/-- A freshly created notification whose inline body references a variable
absent from its empty data mapping. -/
def nMissingVar : Notification :=
  { nInline with
    template_data := []
    inline_body := some "Hi \x7b\x7bmissing\x7d\x7d" }

/-- An inactive template and a freshly created notification referencing it. -/
def tInactive : Template :=
  { subject := some "TplSubject", body := "TplBody", is_active := false }

/-- A notification whose template reference points at `tInactive`; created
with a template, so its inline entries are null. -/
def nInactiveTpl : Notification :=
  { nInline with
    template := some tInactive
    inline_subject := none
    inline_body := none }

/-! ## Step shape lemmas -/

/-- `attempt_send` reads only the immutable fields of the notification, so
overwriting `status` and `error_message` — the two fields failure handling
mutates — does not change its result. -/
theorem attempt_send_status_irrel (env : TaskEnv) (n : Notification) (s : String)
    (m : Option String) :
    attempt_send env { n with status := s, error_message := m } = attempt_send env n := rfl

/-- Idempotency guard (tasks.py lines 48-51): a dispatch attempt on a
notification already `sent` or `delivered` returns immediately, changes
nothing and calls no provider. -/
theorem step_skip (env : TaskEnv) (r : Nat) (db : DB)
    (h : db.notification.status = "sent" ∨ db.notification.status = "delivered") :
    send_notification_task env r db =
      { db := db, outcome := .returned, provider_called := false } := by
  unfold send_notification_task
  rw [if_pos h]

/-- Shape of a successful attempt (tasks.py lines 57-80). -/
theorem step_success (env : TaskEnv) (r : Nat) (db : DB) (b : Bool)
    (result : List (String × PyVal))
    (hs : ¬(db.notification.status = "sent" ∨ db.notification.status = "delivered"))
    (ha : attempt_send env { db.notification with status := "processing" } = (b, .ok result)) :
    send_notification_task env r db =
      { db := { notification := { db.notification with
                                  status := "sent"
                                  sent_at := some env.now
                                  provider_response := result }
                dead_letters := db.dead_letters }
        outcome := .returned, provider_called := b } := by
  unfold send_notification_task
  rw [if_neg hs]
  simp only [ha]

/-- Shape of a failing attempt with retry budget remaining (tasks.py lines
82-97): the error message is recorded, status stays `processing`, no
dead-letter row is created, and the exception is re-raised for Celery to
schedule a retry. -/
theorem step_fail_retry (env : TaskEnv) (r : Nat) (db : DB) (b : Bool) (e : AttemptError)
    (hs : ¬(db.notification.status = "sent" ∨ db.notification.status = "delivered"))
    (ha : attempt_send env { db.notification with status := "processing" } = (b, .error e))
    (hr : r < MAX_RETRIES) :
    send_notification_task env r db =
      { db := { notification := { db.notification with
                                  status := "processing"
                                  error_message := some e.message }
                dead_letters := db.dead_letters }
        outcome := .raised e.message, provider_called := b } := by
  unfold send_notification_task
  rw [if_neg hs]
  simp only [ha]
  rw [if_neg (by omega)]

/-- Shape of a failing attempt with the retry budget exhausted (tasks.py
lines 82-97 and `_move_to_dead_letter`): status becomes `failed`, exactly one
dead-letter row is appended carrying the final error message and the retry
counter, and the task returns instead of re-raising. -/
theorem step_fail_final (env : TaskEnv) (r : Nat) (db : DB) (b : Bool) (e : AttemptError)
    (hs : ¬(db.notification.status = "sent" ∨ db.notification.status = "delivered"))
    (ha : attempt_send env { db.notification with status := "processing" } = (b, .error e))
    (hr : MAX_RETRIES ≤ r) :
    send_notification_task env r db =
      { db := { notification := { db.notification with
                                  status := "failed"
                                  error_message := some e.message }
                dead_letters := db.dead_letters ++ [{ reason := e.message, retry_count := r }] }
        outcome := .returned, provider_called := b } := by
  unfold send_notification_task
  rw [if_neg hs]
  simp only [ha]
  rw [if_pos hr]
  rfl

/-! ## Provider result shape lemmas -/

/-- A `to_dict()` dictionary always has its five keys, hence is never the
empty dict. -/
theorem to_dict_ne_nil (pr : ProviderResult) : pr.to_dict ≠ [] := by
  simp [ProviderResult.to_dict]

/-- Whenever `EmailProvider.send` returns normally, its value is the
`to_dict()` of the result built from some accepted-recipient count. -/
theorem email_send_ok_shape (env : MailEnv) (to_addr : String) (s : Option String)
    (body channel : String) (r : List (String × PyVal))
    (h : EmailProvider.send env to_addr s body channel = .ok r) :
    ∃ c, r = (mk_email_result env.backend c).to_dict := by
  unfold EmailProvider.send at h
  rcases hc : EmailProvider.sendCore env to_addr s body channel with p | p
  · rw [hc] at h; simp [Except.map] at h
  · rw [hc] at h
    simp only [Except.map, Except.ok.injEq] at h
    unfold EmailProvider.sendCore at hc
    split at hc
    · exact absurd hc (by simp)
    · split at hc
      · exact absurd hc (by simp)
      · split at hc
        · exact absurd hc (by simp)
        · split at hc
          · exact absurd hc (by simp)
          · split at hc
            · exact absurd hc (by simp)
            · dsimp only at hc
              split at hc
              · exact absurd hc (by simp)
              · rename_i sent_count heq
                refine ⟨sent_count, ?_⟩
                injection hc with hpq
                subst hpq
                exact h.symm

/-- A successful attempt always yields a non-empty provider-response dict. -/
theorem attempt_ok_ne_nil (env : TaskEnv) (n : Notification)
    (b : Bool) (result : List (String × PyVal))
    (h : attempt_send env n = (b, .ok result)) : result ≠ [] := by
  unfold attempt_send at h
  dsimp only at h
  rcases hg : get_provider n.channel with e | u
  · rw [hg] at h; simp at h
  · rw [hg] at h
    rcases hm : EmailProvider.send env.mail n.to_addr (render_notification n).1
        (render_notification n).2 n.channel with e | res
    · rw [hm] at h; simp at h
    · rw [hm] at h
      simp only [Prod.mk.injEq, Except.ok.injEq] at h
      obtain ⟨c, hc⟩ := email_send_ok_shape _ _ _ _ _ _ hm
      rw [← h.2, hc]
      exact to_dict_ne_nil _

/-! ## Chain lemmas -/

/-- Unfolding the Celery chain at an attempt that re-raised. -/
theorem run_chain_raised (env : TaskEnv) (fuel retries : Nat) (db : DB) (m : String)
    (h : (send_notification_task env retries db).outcome = .raised m) :
    run_chain env (fuel + 1) retries db =
      run_chain env fuel (retries + 1) (send_notification_task env retries db).db := by
  conv_lhs => unfold run_chain
  dsimp only
  rw [h]

/-- Unfolding the Celery chain at an attempt that returned. -/
theorem run_chain_returned (env : TaskEnv) (fuel retries : Nat) (db : DB)
    (h : (send_notification_task env retries db).outcome = .returned) :
    run_chain env (fuel + 1) retries db = (send_notification_task env retries db).db := by
  conv_lhs => unfold run_chain
  dsimp only
  rw [h]

/-- The complete Celery chain for a notification whose attempt always fails
with the same error: three re-raises followed by the dead-letter attempt. -/
theorem chain_fail_all (env : TaskEnv) (db : DB) (b : Bool) (e : AttemptError)
    (hs : ¬(db.notification.status = "sent" ∨ db.notification.status = "delivered"))
    (ha : attempt_send env { db.notification with status := "processing" } = (b, .error e)) :
    run_chain env 4 0 db =
      { notification := { db.notification with
                          status := "failed"
                          error_message := some e.message }
        dead_letters := db.dead_letters ++ [{ reason := e.message, retry_count := 3 }] } := by
  have s0 := step_fail_retry env 0 db b e hs ha (by decide)
  have hs1 : ¬((send_notification_task env 0 db).db.notification.status = "sent" ∨
      (send_notification_task env 0 db).db.notification.status = "delivered") := by
    rw [s0]
    exact (by decide : ¬("processing" = "sent" ∨ "processing" = "delivered"))
  have ha1 : attempt_send env
      { (send_notification_task env 0 db).db.notification with status := "processing" } =
      (b, .error e) := by
    rw [s0]; exact ha
  have s1 := step_fail_retry env 1 ((send_notification_task env 0 db).db) b e hs1 ha1 (by decide)
  have hs2 : ¬((send_notification_task env 1 (send_notification_task env 0 db).db).db.notification.status = "sent" ∨
      (send_notification_task env 1 (send_notification_task env 0 db).db).db.notification.status = "delivered") := by
    rw [s1]
    exact (by decide : ¬("processing" = "sent" ∨ "processing" = "delivered"))
  have ha2 : attempt_send env
      { (send_notification_task env 1 (send_notification_task env 0 db).db).db.notification with
        status := "processing" } = (b, .error e) := by
    rw [s1, s0]; exact ha
  have s2 := step_fail_retry env 2 _ b e hs2 ha2 (by decide)
  have hs3 : ¬((send_notification_task env 2 (send_notification_task env 1 (send_notification_task env 0 db).db).db).db.notification.status = "sent" ∨
      (send_notification_task env 2 (send_notification_task env 1 (send_notification_task env 0 db).db).db).db.notification.status = "delivered") := by
    rw [s2]
    exact (by decide : ¬("processing" = "sent" ∨ "processing" = "delivered"))
  have ha3 : attempt_send env
      { (send_notification_task env 2 (send_notification_task env 1 (send_notification_task env 0 db).db).db).db.notification with
        status := "processing" } = (b, .error e) := by
    rw [s2, s1, s0]; exact ha
  have s3 := step_fail_final env 3 _ b e hs3 ha3 (by decide)
  have o0 : (send_notification_task env 0 db).outcome = .raised e.message := by rw [s0]
  have o1 : (send_notification_task env 1 (send_notification_task env 0 db).db).outcome =
      .raised e.message := by rw [s1]
  have o2 : (send_notification_task env 2 (send_notification_task env 1 (send_notification_task env 0 db).db).db).outcome =
      .raised e.message := by rw [s2]
  have o3 : (send_notification_task env 3 (send_notification_task env 2 (send_notification_task env 1 (send_notification_task env 0 db).db).db).db).outcome =
      .returned := by rw [s3]
  rw [show (4 : Nat) = 3 + 1 from rfl, run_chain_raised env 3 0 db e.message o0,
      show (3 : Nat) = 2 + 1 from rfl, run_chain_raised env 2 1 _ e.message o1,
      show (2 : Nat) = 1 + 1 from rfl, run_chain_raised env 1 2 _ e.message o2,
      show (1 : Nat) = 0 + 1 from rfl, run_chain_returned env 0 3 _ o3, s3, s2, s1, s0]

/-! ## Claims -/

/-- Claim C3: for every notification whose status is already `sent` or
`delivered`, invoking the dispatcher on it is a no-op: the database state is
returned unchanged (so no field of the notification changes and no
dead-letter row is created) and no provider send call occurs. -/
theorem spec_C3_sent_is_noop (env : TaskEnv) (r : Nat) (db : DB)
    (h : db.notification.status = "sent" ∨ db.notification.status = "delivered") :
    send_notification_task env r db =
      { db := db, outcome := .returned, provider_called := false } :=
  step_skip env r db h

/-- Witness for C3 at a concrete already-sent notification. -/
theorem spec_C3_sent_is_noop_witness :
    send_notification_task envOk 0
        { notification := { nInline with status := "sent" }, dead_letters := [] } =
      { db := { notification := { nInline with status := "sent" }, dead_letters := [] }
        outcome := .returned, provider_called := false } :=
  spec_C3_sent_is_noop envOk 0
    { notification := { nInline with status := "sent" }, dead_letters := [] } (Or.inl rfl)

/-- Claim C7: `EmailProvider.send(to, subject, body, channel)` raises a
validation `ValueError` when the channel is not `email`, when the recipient
is empty, or when the body is empty; raises the configuration `ValueError`
when no default sender address is configured (Python treats `None` and the
empty string alike); and otherwise, when the transport accepts the message
and reports a count, returns the result whose status is `sent` exactly when
the accepted-recipient count is positive and `not_sent` otherwise. -/
theorem spec_C7_email_provider_contract (env : MailEnv) (to_addr : String)
    (subject : Option String) (body channel : String) :
    (channel ≠ "email" →
      EmailProvider.send env to_addr subject body channel =
        .error (.invalidChannel channel)) ∧
    (channel = "email" → to_addr = "" →
      EmailProvider.send env to_addr subject body channel = .error .emptyRecipient) ∧
    (channel = "email" → to_addr ≠ "" → body = "" →
      EmailProvider.send env to_addr subject body channel = .error .emptyBody) ∧
    (channel = "email" → to_addr ≠ "" → body ≠ "" →
      (env.default_from_email = none ∨ env.default_from_email = some "") →
      EmailProvider.send env to_addr subject body channel = .error .missingFromEmail) ∧
    (∀ fe c, channel = "email" → to_addr ≠ "" → body ≠ "" →
      env.default_from_email = some fe → fe ≠ "" →
      env.transport { subject := default_subject subject, body := body
                      from_email := fe, to_addrs := [to_addr] } = .ok c →
      EmailProvider.send env to_addr subject body channel =
        .ok ((mk_email_result env.backend c).to_dict) ∧
      ((mk_email_result env.backend c).status = "sent" ↔ 0 < c)) := by
  refine ⟨?_, ?_, ?_, ?_, ?_⟩
  · intro hch
    simp [EmailProvider.send, EmailProvider.sendCore, hch, Except.map]
  · intro hch hto
    subst hch hto
    simp [EmailProvider.send, EmailProvider.sendCore, Except.map]
  · intro hch hto hb
    subst hch hb
    simp [EmailProvider.send, EmailProvider.sendCore, hto, Except.map]
  · intro hch hto hb hfe
    subst hch
    rcases hfe with hfe | hfe <;>
      simp [EmailProvider.send, EmailProvider.sendCore, hto, hb, hfe, Except.map]
  · intro fe c hch hto hb hfe hfene htr
    subst hch
    constructor
    · simp [EmailProvider.send, EmailProvider.sendCore, hto, hb, hfe, hfene, htr, Except.map]
    · simp only [mk_email_result]
      constructor
      · intro hst
        by_contra hc
        have hc0 : c = 0 := by omega
        subst hc0
        simp at hst
      · intro hc
        simp [hc]

/-- Witness for C7: the empty-body validation error at concrete inputs. -/
theorem spec_C7_email_provider_contract_witness :
    EmailProvider.send envOk.mail "a@b.com" (some "S") "" "email" = .error .emptyBody :=
  (spec_C7_email_provider_contract envOk.mail "a@b.com" (some "S") "" "email").2.2.1
    rfl (by decide) rfl

/-- Claim C10: when `EmailProvider.send` is called with subject `None` or
the empty string and its other validations pass, the message is still handed
to the transport with its subject defaulted to the literal string
`Notification`, and the send succeeds with the transport's verdict. -/
theorem spec_C10_subject_defaulted (env : MailEnv) (to_addr body fe : String)
    (s : Option String) (c : Nat)
    (hto : to_addr ≠ "") (hb : body ≠ "")
    (hfe : env.default_from_email = some fe) (hfene : fe ≠ "")
    (hs : s = none ∨ s = some "")
    (htr : env.transport { subject := "Notification", body := body
                           from_email := fe, to_addrs := [to_addr] } = .ok c) :
    EmailProvider.sendCore env to_addr s body "email" =
      .ok ({ subject := "Notification", body := body, from_email := fe, to_addrs := [to_addr] },
           (mk_email_result env.backend c).to_dict) := by
  rcases hs with hs | hs <;> subst hs <;>
    simp [EmailProvider.sendCore, default_subject, hto, hb, hfe, hfene, htr]

/-- Witness for C10: a `None` subject at concrete inputs is sent as
`Notification`. -/
theorem spec_C10_subject_defaulted_witness :
    EmailProvider.sendCore envOk.mail "a@b.com" none "B" "email" =
      .ok ({ subject := "Notification", body := "B", from_email := "noreply@example.com"
             to_addrs := ["a@b.com"] },
           (mk_email_result "SMTPBackend" 1).to_dict) :=
  spec_C10_subject_defaulted envOk.mail "a@b.com" "B" "noreply@example.com" none 1
    (by decide) (by decide) rfl (by decide) (Or.inl rfl) rfl

/-- Claim C8: after a failure on attempt `k` (1-indexed, so Celery has
`retries = k - 1`), every countdown Celery can draw — any value up to
`min(2 ^ (k-1), 900)` under `retry_backoff=True`, `retry_backoff_max=900`
and `retry_jitter=True` — lies within `[0, 2 × schedule[k]]` for the spec's
nominal schedule `[60, 300, 900]` capped at its last entry. -/
theorem spec_C8_backoff_within_schedule (k d : Nat) (hk : 1 ≤ k)
    (hd : d ≤ celery_backoff_cap (k - 1)) :
    d ≤ 2 * spec_schedule k := by
  unfold celery_backoff_cap at hd
  unfold spec_schedule
  by_cases h3 : 3 ≤ k
  · rw [if_pos h3]
    have hmin : min (2 ^ (k - 1)) 900 ≤ 900 := Nat.min_le_right _ _
    omega
  · rw [if_neg h3]
    by_cases h2 : k = 2
    · subst h2
      rw [if_pos rfl]
      have : min (2 ^ (2 - 1)) 900 = 2 := by decide
      omega
    · have hk1 : k = 1 := by omega
      subst hk1
      rw [if_neg (by decide)]
      have : min (2 ^ (1 - 1)) 900 = 1 := by decide
      omega

/-- Witness for C8 at the first attempt, with the largest countdown Celery
can draw there. -/
theorem spec_C8_backoff_within_schedule_witness : (1 : Nat) ≤ 2 * spec_schedule 1 :=
  spec_C8_backoff_within_schedule 1 1 (by decide) (by decide)

/-- Counterexample to claim C1: on the very first dispatch attempt of the
`carrier-pigeon` notification (an unsupported channel), the task re-raises —
propagating a retryable failure to the work queue — leaves status at
`processing`, and creates no dead-letter entry, instead of dead-lettering
immediately with retry count 0. -/
theorem spec_C1_counterexample :
    (send_notification_task envOk 0 { notification := nPigeon, dead_letters := [] }).outcome =
      .raised "Unsupported channel: carrier-pigeon" ∧
    (send_notification_task envOk 0 { notification := nPigeon, dead_letters := [] }).db.dead_letters = [] ∧
    (send_notification_task envOk 0 { notification := nPigeon, dead_letters := [] }).db.notification.status =
      "processing" :=
  ⟨rfl, rfl, rfl⟩

/-- Claim C1 as amended: a notification whose channel has no provider is
treated like any other failing notification — each attempt with
`retries < MAX_RETRIES` records the lookup error and propagates a retryable
failure; the attempt with `retries = MAX_RETRIES` sets status `failed` and
creates the single dead-letter entry; and the full Celery chain from the
first attempt dead-letters only after 4 total attempts, with
`retry_count = 3`, not 0. -/
theorem spec_C1_amended_unsupported_retries (env : TaskEnv) (db : DB) (e : GetProviderError)
    (hch : get_provider db.notification.channel = .error e)
    (hs : ¬(db.notification.status = "sent" ∨ db.notification.status = "delivered")) :
    (∀ r, r < MAX_RETRIES →
       (send_notification_task env r db).outcome =
         .raised (AttemptError.providerLookup e).message ∧
       (send_notification_task env r db).db.dead_letters = db.dead_letters ∧
       (send_notification_task env r db).db.notification.status = "processing") ∧
    ((send_notification_task env MAX_RETRIES db).outcome = .returned ∧
     (send_notification_task env MAX_RETRIES db).db.notification.status = "failed" ∧
     (send_notification_task env MAX_RETRIES db).db.dead_letters =
       db.dead_letters ++ [{ reason := (AttemptError.providerLookup e).message
                             retry_count := MAX_RETRIES }]) ∧
    ((run_chain env 4 0 db).notification.status = "failed" ∧
     (run_chain env 4 0 db).dead_letters =
       db.dead_letters ++ [{ reason := (AttemptError.providerLookup e).message
                             retry_count := 3 }]) := by
  have hch2 : get_provider ({ db.notification with status := "processing" } : Notification).channel =
      .error e := hch
  have ha : attempt_send env { db.notification with status := "processing" } =
      (false, .error (.providerLookup e)) := by
    unfold attempt_send
    dsimp only
    rw [hch2]
  refine ⟨?_, ?_, ?_⟩
  · intro r hr
    rw [step_fail_retry env r db false (.providerLookup e) hs ha hr]
    exact ⟨rfl, rfl, rfl⟩
  · rw [step_fail_final env MAX_RETRIES db false (.providerLookup e) hs ha (Nat.le_refl _)]
    exact ⟨rfl, rfl, rfl⟩
  · rw [chain_fail_all env db false (.providerLookup e) hs ha]
    exact ⟨rfl, rfl⟩

/-- Witness for the amended C1 on the `carrier-pigeon` notification. -/
theorem spec_C1_amended_unsupported_retries_witness :
    (run_chain envOk 4 0 { notification := nPigeon, dead_letters := [] }).notification.status =
      "failed" ∧
    (run_chain envOk 4 0 { notification := nPigeon, dead_letters := [] }).dead_letters =
      [] ++ [{ reason := "Unsupported channel: carrier-pigeon", retry_count := 3 }] :=
  (spec_C1_amended_unsupported_retries envOk { notification := nPigeon, dead_letters := [] }
    (.unsupportedChannel "carrier-pigeon") rfl (by decide)).2.2

/-- Claim C2: when the attempt fails identically every time (for example the
provider transport always throws), each attempt with `retries < 3` records
the error, keeps status `processing`, adds no dead-letter row and re-raises
so the work queue schedules the next attempt — including from the state the
first failure left behind — while the attempt with `retries = 3` returns;
the full Celery chain of 4 total attempts ends with status `failed`, the
final error message recorded, and exactly one dead-letter entry carrying
that message and `retry_count = 3`. -/
theorem spec_C2_retry_exhaustion (env : TaskEnv) (db : DB) (b : Bool) (e : AttemptError)
    (h0 : db.notification.status = "pending")
    (hdl : db.dead_letters = [])
    (ha : attempt_send env { db.notification with status := "processing" } = (b, .error e)) :
    (∀ r, r < MAX_RETRIES →
       (send_notification_task env r db).outcome = .raised e.message ∧
       (send_notification_task env r db).db.dead_letters = db.dead_letters ∧
       (send_notification_task env r db).db.notification.status = "processing") ∧
    (∀ r, r < MAX_RETRIES →
       (send_notification_task env r (send_notification_task env 0 db).db).outcome =
         .raised e.message) ∧
    ((send_notification_task env MAX_RETRIES (send_notification_task env 0 db).db).outcome =
       .returned) ∧
    ((run_chain env 4 0 db).notification.status = "failed" ∧
     (run_chain env 4 0 db).notification.error_message = some e.message ∧
     (run_chain env 4 0 db).dead_letters = [{ reason := e.message, retry_count := 3 }]) := by
  have hs : ¬(db.notification.status = "sent" ∨ db.notification.status = "delivered") := by
    rw [h0]
    exact (by decide : ¬("pending" = "sent" ∨ "pending" = "delivered"))
  have s0 := step_fail_retry env 0 db b e hs ha (by decide)
  have hs1 : ¬((send_notification_task env 0 db).db.notification.status = "sent" ∨
      (send_notification_task env 0 db).db.notification.status = "delivered") := by
    rw [s0]
    exact (by decide : ¬("processing" = "sent" ∨ "processing" = "delivered"))
  have ha1 : attempt_send env
      { (send_notification_task env 0 db).db.notification with status := "processing" } =
      (b, .error e) := by
    rw [s0]; exact ha
  refine ⟨?_, ?_, ?_, ?_⟩
  · intro r hr
    rw [step_fail_retry env r db b e hs ha hr]
    exact ⟨rfl, rfl, rfl⟩
  · intro r hr
    rw [step_fail_retry env r _ b e hs1 ha1 hr]
  · rw [step_fail_final env MAX_RETRIES _ b e hs1 ha1 (Nat.le_refl _)]
  · rw [chain_fail_all env db b e hs ha, hdl]
    exact ⟨rfl, rfl, rfl⟩

/-- Witness for C2 with a transport that always throws `boom`. -/
theorem spec_C2_retry_exhaustion_witness :
    (run_chain envBoom 4 0 { notification := nInline, dead_letters := [] }).notification.status =
      "failed" ∧
    (run_chain envBoom 4 0 { notification := nInline, dead_letters := [] }).notification.error_message =
      some "boom" ∧
    (run_chain envBoom 4 0 { notification := nInline, dead_letters := [] }).dead_letters =
      [{ reason := "boom", retry_count := 3 }] :=
  (spec_C2_retry_exhaustion envBoom { notification := nInline, dead_letters := [] } true
    (.emailSend (.transportError "boom")) rfl rfl rfl).2.2.2

/-- Claim C5: a dispatch attempt writes status `failed` only in the branch
that simultaneously appends the dead-letter entry at retry exhaustion; an
attempt ending in a retryable failure leaves status at `processing`,
records the error message and creates no dead-letter row. -/
theorem spec_C5_failed_only_with_dead_letter (env : TaskEnv) (r : Nat) (db : DB) :
    ((send_notification_task env r db).db.notification.status = "failed" →
       MAX_RETRIES ≤ r ∧ ∃ m,
         (send_notification_task env r db).db.notification.error_message = some m ∧
         (send_notification_task env r db).db.dead_letters =
           db.dead_letters ++ [{ reason := m, retry_count := r }]) ∧
    (∀ m, (send_notification_task env r db).outcome = .raised m →
       (send_notification_task env r db).db.notification.status = "processing" ∧
       (send_notification_task env r db).db.notification.error_message = some m ∧
       (send_notification_task env r db).db.dead_letters = db.dead_letters) := by
  by_cases hs : db.notification.status = "sent" ∨ db.notification.status = "delivered"
  · rw [step_skip env r db hs]
    constructor
    · intro hf
      rcases hs with h | h <;> rw [h] at hf <;> exact absurd hf (by decide)
    · intro m hm
      exact TaskOutcome.noConfusion hm
  · rcases hatt : attempt_send env { db.notification with status := "processing" } with ⟨b, res⟩
    cases res with
    | ok result =>
      rw [step_success env r db b result hs hatt]
      constructor
      · intro hf
        exact absurd hf (by decide : ¬("sent" = "failed"))
      · intro m hm
        exact TaskOutcome.noConfusion hm
    | error e =>
      by_cases hr : MAX_RETRIES ≤ r
      · rw [step_fail_final env r db b e hs hatt hr]
        constructor
        · intro _
          exact ⟨hr, e.message, rfl, rfl⟩
        · intro m hm
          exact TaskOutcome.noConfusion hm
      · rw [step_fail_retry env r db b e hs hatt (by omega)]
        constructor
        · intro hf
          exact absurd hf (by decide : ¬("processing" = "failed"))
        · intro m hm
          injection hm with hme
          subst hme
          exact ⟨rfl, rfl, rfl⟩

/-- Witness for C5: the exhausted attempt of the always-throwing transport
creates the dead-letter row together with the `failed` status. -/
theorem spec_C5_failed_only_with_dead_letter_witness :
    MAX_RETRIES ≤ 3 ∧ ∃ m,
      (send_notification_task envBoom 3 { notification := nInline, dead_letters := [] }).db.notification.error_message =
        some m ∧
      (send_notification_task envBoom 3 { notification := nInline, dead_letters := [] }).db.dead_letters =
        [] ++ [{ reason := m, retry_count := 3 }] :=
  (spec_C5_failed_only_with_dead_letter envBoom 3
    { notification := nInline, dead_letters := [] }).1 rfl

/-! ## The sent-state invariant (claim C4) -/

/-- Invariant maintained by the dispatcher: `sent_at` is set exactly when
status is `sent`, and a `sent` status comes with a non-empty provider
response. Because the `sent` status is absorbing for the dispatcher, the
right-hand side is equivalent to "status ever reached `sent`". -/
def sent_invariant (db : DB) : Prop :=
  (db.notification.sent_at.isSome ↔ db.notification.status = "sent") ∧
  (db.notification.status = "sent" → db.notification.provider_response ≠ [])

theorem sent_invariant_step (env : TaskEnv) (r : Nat) (db : DB)
    (h : sent_invariant db) : sent_invariant (send_notification_task env r db).db := by
  by_cases hs : db.notification.status = "sent" ∨ db.notification.status = "delivered"
  · rw [step_skip env r db hs]
    exact h
  · have hnot : ¬ db.notification.status = "sent" := fun hcon => hs (Or.inl hcon)
    rcases hatt : attempt_send env { db.notification with status := "processing" } with ⟨b, res⟩
    cases res with
    | ok result =>
      rw [step_success env r db b result hs hatt]
      refine ⟨⟨fun _ => rfl, fun _ => rfl⟩, fun _ => ?_⟩
      exact attempt_ok_ne_nil env _ b result hatt
    | error e =>
      by_cases hr : MAX_RETRIES ≤ r
      · rw [step_fail_final env r db b e hs hatt hr]
        refine ⟨⟨fun hsome => absurd (h.1.mp hsome) hnot,
          fun hcon => absurd hcon (by decide : ¬("failed" = "sent"))⟩,
          fun hcon => absurd hcon (by decide : ¬("failed" = "sent"))⟩
      · rw [step_fail_retry env r db b e hs hatt (by omega)]
        refine ⟨⟨fun hsome => absurd (h.1.mp hsome) hnot,
          fun hcon => absurd hcon (by decide : ¬("processing" = "sent"))⟩,
          fun hcon => absurd hcon (by decide : ¬("processing" = "sent"))⟩

theorem run_ops_append (db : DB) (l1 l2 : List (TaskEnv × Nat)) :
    run_ops db (l1 ++ l2) = run_ops (run_ops db l1) l2 := by
  induction l1 generalizing db with
  | nil => rfl
  | cons op rest ih =>
    simp only [run_ops, List.cons_append]
    exact ih _

theorem run_ops_invariant (db : DB) (ops : List (TaskEnv × Nat)) (h : sent_invariant db) :
    sent_invariant (run_ops db ops) := by
  induction ops generalizing db with
  | nil => exact h
  | cons op rest ih => exact ih _ (sent_invariant_step op.1 op.2 db h)

/-- Once a notification is `sent`, further dispatcher invocations change
nothing (the idempotency guard). -/
theorem run_ops_sent_absorbing (db : DB) (ops : List (TaskEnv × Nat))
    (h : db.notification.status = "sent") : run_ops db ops = db := by
  induction ops with
  | nil => rfl
  | cons op rest ih =>
    simp only [run_ops, step_skip op.1 op.2 db (Or.inl h)]
    exact ih

/-- Claim C4: starting from a freshly created notification, after any
sequence of dispatcher invocations `sent_at` is non-null exactly when some
prefix of the sequence left the status at `sent`, and whenever the status is
`sent` the provider response is a non-empty dict (set in the same step that
set `sent_at`). -/
theorem spec_C4_sent_at_iff_ever_sent (db0 : DB) (ops : List (TaskEnv × Nat))
    (h0 : freshly_created db0.notification) :
    ((run_ops db0 ops).notification.sent_at.isSome ↔
       ∃ pre, pre <+: ops ∧ (run_ops db0 pre).notification.status = "sent") ∧
    ((run_ops db0 ops).notification.status = "sent" →
       (run_ops db0 ops).notification.sent_at.isSome ∧
       (run_ops db0 ops).notification.provider_response ≠ []) := by
  obtain ⟨hst, hpr, hem, hsa⟩ := h0
  have hinv0 : sent_invariant db0 := by
    constructor
    · rw [hsa, hst]
      constructor
      · intro hx
        simp at hx
      · intro hx
        exact absurd hx (by decide)
    · intro hx
      rw [hst] at hx
      exact absurd hx (by decide)
  have hinv := run_ops_invariant db0 ops hinv0
  refine ⟨⟨?_, ?_⟩, ?_⟩
  · intro hsome
    exact ⟨ops, List.prefix_refl ops, hinv.1.mp hsome⟩
  · rintro ⟨pre, ⟨suf, hps⟩, hsent⟩
    have hstable : run_ops db0 ops = run_ops db0 pre := by
      rw [← hps, run_ops_append, run_ops_sent_absorbing _ _ hsent]
    rw [hstable]
    exact (run_ops_invariant db0 pre hinv0).1.mpr hsent
  · intro hsent
    exact ⟨hinv.1.mpr hsent, hinv.2 hsent⟩

/-- Witness for C4 on a fresh notification dispatched once successfully. -/
theorem spec_C4_sent_at_iff_ever_sent_witness :
    ((run_ops { notification := nInline, dead_letters := [] } [(envOk, 0)]).notification.sent_at.isSome ↔
       ∃ pre, pre <+: [(envOk, 0)] ∧
         (run_ops { notification := nInline, dead_letters := [] } pre).notification.status = "sent") ∧
    ((run_ops { notification := nInline, dead_letters := [] } [(envOk, 0)]).notification.status = "sent" →
       (run_ops { notification := nInline, dead_letters := [] } [(envOk, 0)]).notification.sent_at.isSome ∧
       (run_ops { notification := nInline, dead_letters := [] } [(envOk, 0)]).notification.provider_response ≠ []) :=
  spec_C4_sent_at_iff_ever_sent { notification := nInline, dead_letters := [] }
    [(envOk, 0)] ⟨rfl, rfl, rfl, rfl⟩

/-- Counterexample to claim C6: the notification whose inline body is
`Hi \x7b\x7bmissing\x7d\x7d` with an empty data mapping does not fail to
render — Jinja2's default lenient `Undefined` drops the placeholder, the
body renders as `Hi `, and the dispatch attempt succeeds outright with no
error recorded and no retry consumed. -/
theorem spec_C6_counterexample :
    jinjaRender "Hi \x7b\x7bmissing\x7d\x7d" [] = "Hi " ∧
    (send_notification_task envOk 0 { notification := nMissingVar, dead_letters := [] }).outcome =
      .returned ∧
    (send_notification_task envOk 0 { notification := nMissingVar, dead_letters := [] }).db.notification.status =
      "sent" ∧
    (send_notification_task envOk 0 { notification := nMissingVar, dead_letters := [] }).db.notification.error_message =
      none ∧
    (send_notification_task envOk 0 { notification := nMissingVar, dead_letters := [] }).db.dead_letters =
      [] :=
  ⟨rfl, rfl, rfl, rfl, rfl⟩

/-- Claim C6 as amended: rendering uses Jinja2's default lenient `Undefined`
semantics, not strict-undefined — a referenced variable absent from the
rendering data mapping is substituted by the empty string, so a body
`Hi \x7b\x7bmissing\x7d\x7d` renders as `Hi ` and the dispatch attempt
proceeds and succeeds when the provider succeeds, consuming no retry. -/
theorem spec_C6_amended_lenient_undefined (data : List (String × String))
    (h : lookupStr data "missing" = none) :
    jinjaRender "Hi \x7b\x7bmissing\x7d\x7d" data = "Hi " ∧
    (send_notification_task envOk 0
        { notification := { nMissingVar with template_data := data }, dead_letters := [] }).outcome =
      .returned ∧
    (send_notification_task envOk 0
        { notification := { nMissingVar with template_data := data }, dead_letters := [] }).db.notification.status =
      "sent" ∧
    (send_notification_task envOk 0
        { notification := { nMissingVar with template_data := data }, dead_letters := [] }).db.dead_letters =
      [] := by
  have key : jinjaRender "Hi \x7b\x7bmissing\x7d\x7d" data =
      "Hi " ++ ((lookupStr data "missing").getD "" ++ "") := rfl
  have hb : jinjaRender "Hi \x7b\x7bmissing\x7d\x7d" data = "Hi " := by
    rw [key, h]
    rfl
  have hrender : render_notification
      { ({ nMissingVar with template_data := data } : Notification) with status := "processing" } =
      (some "Hello!", "Hi ") := by
    have hshape : render_notification
        { ({ nMissingVar with template_data := data } : Notification) with status := "processing" } =
        (some "Hello!", jinjaRender "Hi \x7b\x7bmissing\x7d\x7d" data) := rfl
    rw [hshape, hb]
  have hatt : attempt_send envOk
      { ({ nMissingVar with template_data := data } : Notification) with status := "processing" } =
      (true, .ok ((mk_email_result "SMTPBackend" 1).to_dict)) := by
    unfold attempt_send
    dsimp only
    rw [hrender]
    rfl
  have hstep := step_success envOk 0
    { notification := { nMissingVar with template_data := data }, dead_letters := [] }
    true ((mk_email_result "SMTPBackend" 1).to_dict)
    (by exact (by decide : ¬("pending" = "sent" ∨ "pending" = "delivered"))) hatt
  rw [hstep]
  exact ⟨hb, rfl, rfl, rfl⟩

/-- Witness for the amended C6 with a non-empty mapping lacking `missing`. -/
theorem spec_C6_amended_lenient_undefined_witness :
    jinjaRender "Hi \x7b\x7bmissing\x7d\x7d" [("name", "Sam")] = "Hi " :=
  (spec_C6_amended_lenient_undefined [("name", "Sam")] rfl).1

/-- Counterexample to claim C9: a notification referencing an inactive
template (`is_active = false`) still renders that template's subject and
body at dispatch time and is sent successfully — the dispatcher never
consults the activity flag. -/
theorem spec_C9_counterexample :
    tInactive.is_active = false ∧
    render_notification nInactiveTpl = (some "TplSubject", "TplBody") ∧
    (send_notification_task envOk 0 { notification := nInactiveTpl, dead_letters := [] }).db.notification.status =
      "sent" :=
  ⟨rfl, rfl, rfl⟩

/-- Claim C9 as amended: a dispatch attempt renders from the referenced
template whenever the reference is set, regardless of the template's
`is_active` flag (activity is only filtered by the ingress at creation
time); without a template reference it renders the inline subject/body
stored at creation, substituting with the same data mapping in both
paths. -/
theorem spec_C9_amended_template_used_regardless_of_active :
    (∀ (n : Notification) (s : Option String) (bd : String) (b1 b2 : Bool),
       render_notification
           { n with template := some { subject := s, body := bd, is_active := b1 } } =
         render_notification
           { n with template := some { subject := s, body := bd, is_active := b2 } }) ∧
    (∀ (n : Notification) (t : Template), n.template = some t →
       render_notification n =
         (if pyTruthyStr t.subject then
            some (jinjaRender (t.subject.getD "") n.template_data)
          else none,
          jinjaRender t.body n.template_data)) ∧
    (∀ n : Notification, n.template = none →
       render_notification n =
         (if n.inline_subject.getD "" ≠ "" then
            some (jinjaRender (n.inline_subject.getD "") n.template_data)
          else none,
          jinjaRender (n.inline_body.getD "") n.template_data)) := by
  refine ⟨?_, ?_, ?_⟩
  · intro n s bd b1 b2
    rfl
  · intro n t ht
    unfold render_notification
    rw [ht]
  · intro n ht
    unfold render_notification
    rw [ht]

/-- Witness for the amended C9 at the inactive template fixture. -/
theorem spec_C9_amended_template_used_regardless_witness :
    render_notification nInactiveTpl =
      (if pyTruthyStr tInactive.subject then
         some (jinjaRender (tInactive.subject.getD "") nInactiveTpl.template_data)
       else none,
       jinjaRender tInactive.body nInactiveTpl.template_data) :=
  spec_C9_amended_template_used_regardless_of_active.2.1 nInactiveTpl tInactive rfl

end SmartNotification
